import Mathlib

/-!
Shallow embedding of the IACAD donations preprocessing pipeline
(preprocess_data.py) and metrics service (src/services/metrics_service.py),
with theorems checking the natural-language specification against it.

Conventions:
- Gregorian and Hijri dates are triples of natural numbers.
- The external hijri_converter library call (Gregorian(...).to_hijri()) is
  modelled as an abstract oracle parameter of type GDate to Option HijriDate;
  the try/except in get_hijri_date maps any library exception to none.
- pandas NaN/NaT values are modelled as Option none; machine floats are
  modelled as rationals, so a numeric field that pandas renders as NaN is a
  none of an Option type in the model.
- pandas DataFrames are lists of records; the row index that pandas keeps
  after dropna-filtering is modelled explicitly where alignment matters.
-/

/-- A Gregorian calendar date (year, month, day), as consumed by
Gregorian(...) in preprocess_data.py. -/
structure GDate where
  year : Nat
  month : Nat
  day : Nat
deriving DecidableEq

/-- A Hijri calendar date as produced by the hijri_converter library:
fields year, month, day. -/
structure HijriDate where
  year : Nat
  month : Nat
  day : Nat
deriving DecidableEq

/-- The external conversion capability Gregorian(y,m,d).to_hijri(), with a
library exception modelled as none. -/
def HijriConv := GDate → Option HijriDate

/-- Embeds get_hijri_date of preprocess_data.py: call the converter, return
None on any exception (the oracle already folds exceptions into none). -/
def get_hijri_date (conv : HijriConv) (g : GDate) : Option HijriDate :=
  conv g

/-- Embeds is_ramadan of preprocess_data.py. -/
def is_ramadan (conv : HijriConv) (g : GDate) : Bool :=
  match get_hijri_date conv g with
  | some h => h.month == 9
  | none => false

/-- Embeds get_hijri_month_name of preprocess_data.py. -/
def get_hijri_month_name (month_num : Nat) : String :=
  if month_num = 1 then "Muharram"
  else if month_num = 2 then "Safar"
  else if month_num = 3 then "Rabi al-Awwal"
  else if month_num = 4 then "Rabi al-Thani"
  else if month_num = 5 then "Jumada al-Awwal"
  else if month_num = 6 then "Jumada al-Thani"
  else if month_num = 7 then "Rajab"
  else if month_num = 8 then "Shaban"
  else if month_num = 9 then "Ramadan"
  else if month_num = 10 then "Shawwal"
  else if month_num = 11 then "Dhul Qadah"
  else if month_num = 12 then "Dhul Hijjah"
  else "Unknown"

/-- The body of identify_islamic_events after the Hijri conversion
succeeded, exactly as written in preprocess_data.py lines 58 to 74. -/
def eventsOfHijri (h : HijriDate) : Option String :=
  if h.month = 9 then
    if 1 ≤ h.day ∧ h.day ≤ 10 then some "Ramadan (First 10 Days)"
    else if 11 ≤ h.day ∧ h.day ≤ 20 then some "Ramadan (Middle 10 Days)"
    else some "Ramadan (Last 10 Days)"
  else if h.month = 10 ∧ h.day ≤ 3 then some "Eid al-Fitr"
  else if h.month = 12 ∧ 8 ≤ h.day ∧ h.day ≤ 13 then some "Hajj & Eid al-Adha"
  else if h.month = 1 ∧ h.day = 10 then some "Day of Ashura"
  else if h.month = 3 ∧ h.day = 12 then some "Mawlid al-Nabi"
  else none

/-- Embeds identify_islamic_events of preprocess_data.py: convert the
Gregorian date itself, return None when conversion fails. -/
def identify_islamic_events (conv : HijriConv) (g : GDate) : Option String :=
  match get_hijri_date conv g with
  | none => none
  | some h => eventsOfHijri h

/-- The body of get_ramadan_period after the Hijri conversion succeeded with
month 9, exactly the day windows of preprocess_data.py lines 82 to 87. -/
def ramadanPeriodOfDay (d : Nat) : String :=
  if 1 ≤ d ∧ d ≤ 10 then "First 10 Days"
  else if 11 ≤ d ∧ d ≤ 20 then "Middle 10 Days"
  else "Last 10 Days"

/-- Embeds get_ramadan_period of preprocess_data.py: None when conversion
fails or the Hijri month is not 9. -/
def get_ramadan_period (conv : HijriConv) (g : GDate) : Option String :=
  match get_hijri_date conv g with
  | none => none
  | some h => if h.month ≠ 9 then none else some (ramadanPeriodOfDay h.day)

/-- The Hijri-derived columns attached to one record by the enrichment loop
of process_donation_data (preprocess_data.py lines 197 to 220). -/
structure HijriFields where
  hijri_year : Option Nat
  hijri_month : Option Nat
  hijri_day : Option Nat
  hijri_month_name : Option String
  is_ramadan : Bool
  islamic_event : Option String
  ramadan_period : Option String
deriving DecidableEq

/-- The per-row body of the enrichment loop: the dict appended to
hijri_data for one record, including the all-null fallback when the
conversion returns None (preprocess_data.py lines 201 to 220). -/
def hijriFieldsFor (conv : HijriConv) (g : GDate) : HijriFields :=
  match get_hijri_date conv g with
  | some h =>
    { hijri_year := some h.year
      hijri_month := some h.month
      hijri_day := some h.day
      hijri_month_name := some (get_hijri_month_name h.month)
      is_ramadan := h.month == 9
      islamic_event := identify_islamic_events conv g
      ramadan_period := if h.month == 9 then get_ramadan_period conv g else none }
  | none =>
    { hijri_year := none
      hijri_month := none
      hijri_day := none
      hijri_month_name := none
      is_ramadan := false
      islamic_event := none
      ramadan_period := none }

/-!
Validation and cleaning (preprocess_data.py lines 151 to 159).
A raw row after the two coercions: donationdate is none when
pd.to_datetime with errors coerce yields NaT, amount is none when
pd.to_numeric yields NaN (missing or non-numeric input).
-/

/-- A raw row after the errors-coerce conversions of donationdate and
amount: none fields model NaT/NaN. -/
structure RawRow where
  donationdate : Option GDate
  amount : Option ℚ
deriving DecidableEq

/-- Embeds df.dropna on donationdate and amount: keep exactly the rows
where both coerced fields are present. -/
def cleanRows (rows : List RawRow) : List RawRow :=
  rows.filter (fun r => r.donationdate.isSome && r.amount.isSome)

/-- The dropped count the pipeline reports: before_clean minus
after_clean. -/
def droppedCount (rows : List RawRow) : Nat :=
  rows.length - (cleanRows rows).length

/-!
Batched enrichment (preprocess_data.py lines 187 to 221): the loop walks the
frame in slices of batch_size rows and appends one HijriFields dict per row,
in order. The fuel argument bounds the recursion; it is at least the list
length whenever the batch size is positive, which is the only case the
source can reach (batch_size is the constant 10000).
-/

/-- One pass of the batched loop: take a batch, enrich its rows, recurse on
the rest. -/
def enrichBatchedGo (conv : HijriConv) (bs : Nat) : Nat → List GDate → List HijriFields
  | _, [] => []
  | 0, _ :: _ => []
  | fuel + 1, x :: xs =>
      ((x :: xs).take bs).map (hijriFieldsFor conv) ++
        enrichBatchedGo conv bs fuel ((x :: xs).drop bs)

/-- Embeds the construction of the hijri_data list by the batched loop of
process_donation_data, parameterised on the batch size. -/
def enrichBatched (conv : HijriConv) (bs : Nat) (l : List GDate) : List HijriFields :=
  enrichBatchedGo conv bs l.length l

/-!
Index-aligned attachment (preprocess_data.py lines 224 to 226):
hijri_df = pd.DataFrame(hijri_data) carries a fresh range index 0..n-1,
while df kept its original row labels through dropna and the year filter.
pd.concat with axis 1 outer-joins on the index: the result has one row per
label in the sorted union of the two indexes, with missing sides as NaN.
-/

/-- Rows of the validated frame with the original pandas row labels they
keep after dropna: position i of the raw input survives with label i. -/
def validatedIndexed (raw : List RawRow) : List (Nat × GDate) :=
  raw.enum.filterMap (fun p =>
    match p.2.donationdate, p.2.amount with
    | some d, some _ => some (p.1, d)
    | _, _ => none)

/-- Embeds pd.concat of two frames on axis 1 with outer join: one output
row per label in the sorted union of the indexes, each side none when the
label is absent from it. -/
def concatAligned (dfRows : List (Nat × GDate)) (hRows : List (Nat × HijriFields)) :
    List (Nat × (Option GDate × Option HijriFields)) :=
  (List.insertionSort (fun a b => a ≤ b) ((dfRows.map Prod.fst ++ hRows.map Prod.fst).dedup)).map
    (fun k => (k, (dfRows.lookup k, hRows.lookup k)))

/-- Embeds the attachment step of process_donation_data: build hijri_data
positionally from the validated rows (fresh labels 0..n-1 via enum), then
concat it to the labelled frame on the index. -/
def enrichAttach (conv : HijriConv) (dfRows : List (Nat × GDate)) :
    List (Nat × (Option GDate × Option HijriFields)) :=
  concatAligned dfRows ((dfRows.map (fun p => hijriFieldsFor conv p.2)).enum)

/-!
Translation (preprocess_data.py lines 115 to 132). The external
GoogleTranslator call is an abstract fallible oracle; the cache is an
association list; the result records how many remote calls were made.
-/

/-- Outcome of one translate_text call: the returned value (none for
NaN/empty input), the cache after the call, and the number of remote
translator invocations it performed. -/
structure TransResult where
  result : Option String
  cache : List (String × String)
  calls : Nat
deriving DecidableEq

/-- Embeds translate_text of preprocess_data.py. The text argument is none
for a NaN label; the translator oracle models the remote collaborator, an
error value standing for any raised exception. -/
def translate_text (text : Option String) (translator : String → Except String String)
    (translation_cache : List (String × String)) : TransResult :=
  match text with
  | none => ⟨none, translation_cache, 0⟩
  | some t =>
    if t = "" then ⟨none, translation_cache, 0⟩
    else
      match translation_cache.lookup t with
      | some v => ⟨some v, translation_cache, 0⟩
      | none =>
        match translator t with
        | Except.ok tr => ⟨some tr, (t, tr) :: translation_cache, 1⟩
        | Except.error _ => ⟨some t, translation_cache, 1⟩

/-!
Metrics service (src/services/metrics_service.py). A row of the processed
DataFrame as the aggregators consume it; donationdate appears through its
year and month, which determine the pandas Period keys used by
calculate_growth_rate.
-/

/-- A processed donation row as consumed by the metrics service. -/
structure MetricRow where
  id : Nat
  amount : ℚ
  is_ramadan : Bool
  donationtype : String
  year : Nat
  month : Nat
deriving DecidableEq

/-- Mean of a list of rationals, as pandas mean on a non-empty column. -/
def meanQ (xs : List ℚ) : ℚ :=
  xs.sum / (xs.length : ℚ)

/-- Median of a list of rationals, as pandas median on a non-empty column:
sort, take the middle element, or the mean of the two middle elements. -/
def medianQ (xs : List ℚ) : ℚ :=
  let s := List.insertionSort (fun a b => a ≤ b) xs
  let n := xs.length
  if n % 2 = 1 then s.getD (n / 2) 0
  else (s.getD (n / 2 - 1) 0 + s.getD (n / 2) 0) / 2

/-- Sample variance with one delta degree of freedom, the square of the
pandas std of the column: none models the NaN that pandas std returns when
the column has fewer than two values. Squaring loses no information about
NaN-ness, since the variance is non-negative and its square root is always
a finite real. -/
def sampleVarQ (xs : List ℚ) : Option ℚ :=
  if xs.length < 2 then none
  else some (((xs.map (fun x => (x - meanQ xs) ^ 2)).sum) / ((xs.length : ℚ) - 1))

/-- Maximum of a list of rationals, as pandas max on a non-empty column. -/
def maxListQ : List ℚ → ℚ
  | [] => 0
  | x :: xs => xs.foldl max x

/-- Minimum of a list of rationals, as pandas min on a non-empty column. -/
def minListQ : List ℚ → ℚ
  | [] => 0
  | x :: xs => xs.foldl min x

/-- The KPI dictionary returned by calculate_kpis. The std_donation field
holds the square of the pandas std (see sampleVarQ); none models NaN. -/
structure Kpis where
  total_donations : Nat
  total_amount : ℚ
  avg_donation : ℚ
  median_donation : ℚ
  std_donation : Option ℚ
  unique_donors : Nat
  unique_types : Nat
  ramadan_donations : Nat
  ramadan_amount : ℚ
  ramadan_percentage : ℚ
  ramadan_avg : ℚ
  non_ramadan_avg : ℚ
  max_donation : ℚ
  min_donation : ℚ
deriving DecidableEq

/-- Embeds the helper of metrics_service.py that returns the all-zero KPI
dictionary for an empty frame; its source name starts with an
underscore. -/
def empty_kpis : Kpis :=
  { total_donations := 0
    total_amount := 0
    avg_donation := 0
    median_donation := 0
    std_donation := some 0
    unique_donors := 0
    unique_types := 0
    ramadan_donations := 0
    ramadan_amount := 0
    ramadan_percentage := 0
    ramadan_avg := 0
    non_ramadan_avg := 0
    max_donation := 0
    min_donation := 0 }

/-- Embeds calculate_kpis of metrics_service.py lines 14 to 46. -/
def calculate_kpis (df : List MetricRow) : Kpis :=
  if df = [] then empty_kpis
  else
    let ram := df.filter MetricRow.is_ramadan
    let nonram := df.filter (fun r => !r.is_ramadan)
    let amounts := df.map MetricRow.amount
    { total_donations := df.length
      total_amount := amounts.sum
      avg_donation := meanQ amounts
      median_donation := medianQ amounts
      std_donation := sampleVarQ amounts
      unique_donors := (df.map MetricRow.id).dedup.length
      unique_types := (df.map MetricRow.donationtype).dedup.length
      ramadan_donations := ram.length
      ramadan_amount := if 0 < ram.length then (ram.map MetricRow.amount).sum else 0
      ramadan_percentage := if 0 < df.length then ((ram.length : ℚ) / (df.length : ℚ)) * 100 else 0
      ramadan_avg := if 0 < ram.length then meanQ (ram.map MetricRow.amount) else 0
      non_ramadan_avg := if 0 < nonram.length then meanQ (nonram.map MetricRow.amount) else 0
      max_donation := maxListQ amounts
      min_donation := minListQ amounts }

/-- Chronological order on pandas Period keys, encoded as (year, month)
pairs with month 0 for yearly granularity. -/
def keyLE (a b : Nat × Nat) : Prop :=
  a.1 < b.1 ∨ (a.1 = b.1 ∧ a.2 ≤ b.2)

instance : DecidableRel keyLE := fun a b => by
  unfold keyLE; exact inferInstance

instance : IsTotal (Nat × Nat) keyLE :=
  ⟨by intro a b; unfold keyLE; omega⟩

instance : IsTrans (Nat × Nat) keyLE :=
  ⟨by intro a b c; unfold keyLE; omega⟩

/-- The pandas Period key of a row at a given granularity: dt.to_period M
keys on (year, month), dt.to_period Y on the year alone. -/
def periodKey (period : String) (r : MetricRow) : Nat × Nat :=
  if period = "month" then (r.year, r.month) else (r.year, 0)

/-- Embeds the groupby-sum of calculate_growth_rate: one (key, amount sum)
entry per distinct period key, keys in chronological order like a pandas
groupby result. -/
def groupedSums (df : List MetricRow) (period : String) : List ((Nat × Nat) × ℚ) :=
  (List.insertionSort keyLE ((df.map (periodKey period)).dedup)).map
    (fun k => (k, ((df.filter (fun r => periodKey period r == k)).map MetricRow.amount).sum))

/-- The tail of calculate_growth_rate once the grouped sums exist: 0 with
fewer than two periods, else the percentage change between the last two
entries, 0 when the previous sum is exactly zero. -/
def growthOfGrouped (grouped : List ((Nat × Nat) × ℚ)) : ℚ :=
  if grouped.length < 2 then 0
  else
    match grouped.reverse with
    | cur :: prev :: _ => if prev.2 = 0 then 0 else ((cur.2 - prev.2) / prev.2) * 100
    | _ => 0

/-- Embeds calculate_growth_rate of metrics_service.py lines 69 to 103. -/
def calculate_growth_rate (df : List MetricRow) (period : String) : ℚ :=
  if df.length < 2 then 0
  else if period = "month" ∨ period = "year" then growthOfGrouped (groupedSums df period)
  else 0

/-- Embeds calculate_donor_statistics of metrics_service.py lines 106 to
141, returned as the ordered key-value pairs of the Python dict so that the
set of keys of each branch is visible. -/
def calculate_donor_statistics (df : List MetricRow) : List (String × ℚ) :=
  if df = [] then
    [("total_donors", 0), ("repeat_donors", 0), ("one_time_donors", 0),
     ("avg_donations_per_donor", 0), ("top_donor_amount", 0), ("top_donor_count", 0)]
  else
    let ids := List.insertionSort (fun a b => a ≤ b) ((df.map MetricRow.id).dedup)
    let counts := ids.map (fun i => (((df.filter (fun r => r.id == i)).length : ℚ)))
    let totals := ids.map (fun i => ((df.filter (fun r => r.id == i)).map MetricRow.amount).sum)
    [("total_donors", (ids.length : ℚ)),
     ("repeat_donors", ((counts.filter (fun c => 1 < c)).length : ℚ)),
     ("one_time_donors", ((counts.filter (fun c => c == 1)).length : ℚ)),
     ("avg_donations_per_donor", meanQ counts),
     ("top_donor_amount", maxListQ totals),
     ("top_donor_count", maxListQ counts),
     ("median_donations_per_donor", medianQ counts)]

/-- The fixed list of tracked metrics of compare_periods. -/
def trackedKeys : List String :=
  ["total_donations", "total_amount", "avg_donation", "ramadan_donations", "ramadan_amount"]

/-- The KPI dictionary entry a tracked key of compare_periods reads. -/
def kpiValue (k : Kpis) (key : String) : ℚ :=
  if key = "total_donations" then (k.total_donations : ℚ)
  else if key = "total_amount" then k.total_amount
  else if key = "avg_donation" then k.avg_donation
  else if key = "ramadan_donations" then (k.ramadan_donations : ℚ)
  else k.ramadan_amount

/-- The comparison structure returned by compare_periods: the two labelled
KPI blocks and, per tracked key, the pair of absolute and percentage
change. -/
structure PeriodComparison where
  label1 : String
  kpis1 : Kpis
  label2 : String
  kpis2 : Kpis
  changes : List (String × ℚ × ℚ)
deriving DecidableEq

/-- Embeds compare_periods of metrics_service.py lines 198 to 246. -/
def compare_periods (df1 df2 : List MetricRow) (period1_label period2_label : String) :
    PeriodComparison :=
  let kpis1 := calculate_kpis df1
  let kpis2 := calculate_kpis df2
  { label1 := period1_label
    kpis1 := kpis1
    label2 := period2_label
    kpis2 := kpis2
    changes := trackedKeys.map (fun key =>
      let val1 := kpiValue kpis1 key
      let val2 := kpiValue kpis2 key
      (key, val2 - val1, if 0 < val1 then ((val2 - val1) / val1) * 100 else 0)) }

/-!
Spec-side definitions (for refinement comparison only): the event and
Ramadan-period tables exactly as the specification section 4.2 words them,
to be compared with the classifier embedded from the source.
-/

/-- The islamic_event table as the specification states it, keyed on a
Hijri month and day. -/
def specEventTable (m d : Nat) : Option String :=
  if m = 9 ∧ 1 ≤ d ∧ d ≤ 10 then some "Ramadan (First 10 Days)"
  else if m = 9 ∧ 11 ≤ d ∧ d ≤ 20 then some "Ramadan (Middle 10 Days)"
  else if m = 9 ∧ 21 ≤ d ∧ d ≤ 30 then some "Ramadan (Last 10 Days)"
  else if m = 10 ∧ 1 ≤ d ∧ d ≤ 3 then some "Eid al-Fitr"
  else if m = 12 ∧ 8 ≤ d ∧ d ≤ 13 then some "Hajj & Eid al-Adha"
  else if m = 1 ∧ d = 10 then some "Day of Ashura"
  else if m = 3 ∧ d = 12 then some "Mawlid al-Nabi"
  else none

/-- The ramadan_period table as the specification states it. -/
def specRamadanPeriod (m d : Nat) : Option String :=
  if m = 9 ∧ 1 ≤ d ∧ d ≤ 10 then some "First 10 Days"
  else if m = 9 ∧ 11 ≤ d ∧ d ≤ 20 then some "Middle 10 Days"
  else if m = 9 ∧ 21 ≤ d ∧ d ≤ 30 then some "Last 10 Days"
  else none

/-!
Concrete inputs used by witnesses and counterexamples.
-/

/-- A conversion oracle that maps every date to Hijri year 1446, month 9,
day 15. -/
def conv915 : HijriConv := fun _ => some ⟨1446, 9, 15⟩

/-- A conversion oracle that fails on every date, modelling a library
exception on the whole domain. -/
def convNone : HijriConv := fun _ => none

/-- A sample Gregorian date. -/
def gd1 : GDate := ⟨2024, 3, 25⟩

/-- A second sample Gregorian date. -/
def gd2 : GDate := ⟨2023, 6, 2⟩

/-- Builds a metric row with the given donor id, amount, year and month,
outside Ramadan, with a fixed category label. -/
def mkRow (i : Nat) (a : ℚ) (y m : Nat) : MetricRow :=
  { id := i, amount := a, is_ramadan := false, donationtype := "t", year := y, month := m }

/-- Ten donations of 100 in one month: period A of the comparison
scenario, total amount 1000. -/
def demoPeriodA : List MetricRow := List.replicate 10 (mkRow 1 100 2023 1)

/-- Ten donations of 150 in one month: period B of the comparison
scenario, total amount 1500. -/
def demoPeriodB : List MetricRow := List.replicate 10 (mkRow 1 150 2023 2)

/-- Two donations inside one calendar month. -/
def demoSingleMonth : List MetricRow := [mkRow 1 5 2023 4, mkRow 2 6 2023 4]

/-- A raw input of 100 rows: 5 with an unparseable date, 3 with a missing
or non-numeric amount, 92 fully valid; no overlap. -/
def demoRaw100 : List RawRow :=
  List.replicate 5 { donationdate := none, amount := some 10 } ++
    List.replicate 3 { donationdate := some gd1, amount := none } ++
      List.replicate 92 { donationdate := some gd1, amount := some 10 }

/-- A raw input of 100 rows where the 3 bad-amount rows carry a negative
numeric amount instead of a missing one. -/
def demoRawNeg100 : List RawRow :=
  List.replicate 5 { donationdate := none, amount := some 10 } ++
    List.replicate 3 { donationdate := some gd1, amount := some (-5) } ++
      List.replicate 92 { donationdate := some gd1, amount := some 10 }

/-- A raw input of two rows where the first has an unparseable date and the
second is valid. -/
def demoRawDrop : List RawRow :=
  [{ donationdate := none, amount := some 5 },
   { donationdate := some gd1, amount := some 7 }]

/-- Three sample Gregorian dates for batching demonstrations. -/
def demoDates : List GDate := [gd1, gd2, ⟨2022, 11, 9⟩]

/-!
Helper lemmas shared by several developments.
-/

/-- The classifier and period bodies agree with the specification tables
on every month below 13 and day below 31, checked by evaluation. The year
component does not occur in either body. -/
theorem tables_eq_spec_bounded :
    ∀ m : Nat, m < 13 → ∀ d : Nat, d < 31 → 1 ≤ m → 1 ≤ d →
      eventsOfHijri ⟨0, m, d⟩ = specEventTable m d ∧
      (if m ≠ 9 then none else some (ramadanPeriodOfDay d)) = specRamadanPeriod m d := by
  decide

/-- The classifier body agrees with the specification event table on the
declared Hijri domain. -/
theorem eventsOfHijri_eq_spec (y m d : Nat) (hm1 : 1 ≤ m) (hm2 : m ≤ 12)
    (hd1 : 1 ≤ d) (hd2 : d ≤ 30) :
    eventsOfHijri ⟨y, m, d⟩ = specEventTable m d := by
  have hy : eventsOfHijri ⟨y, m, d⟩ = eventsOfHijri ⟨0, m, d⟩ := rfl
  rw [hy]
  exact (tables_eq_spec_bounded m (by omega) d (by omega) hm1 hd1).1

/-- The period body agrees with the specification table on the declared
Hijri domain. -/
theorem ramadanPeriod_eq_spec (m d : Nat) (hm1 : 1 ≤ m) (hm2 : m ≤ 12)
    (hd1 : 1 ≤ d) (hd2 : d ≤ 30) :
    (if m ≠ 9 then none else some (ramadanPeriodOfDay d)) = specRamadanPeriod m d :=
  (tables_eq_spec_bounded m (by omega) d (by omega) hm1 hd1).2

/-- The claim C1 theorem, stated below, uses this characterisation of the
is_ramadan function. -/
theorem is_ramadan_eq (conv : HijriConv) (g : GDate) :
    is_ramadan conv g = (match get_hijri_date conv g with
      | some h => h.month == 9
      | none => false) := rfl

/-- Claim C1: for every enriched record the is_ramadan flag is true iff
the Hijri conversion succeeded with month 9; a failed conversion yields
false. Stated for the is_ramadan function and for the field the
enrichment loop attaches. -/
theorem C1_is_ramadan_iff_month9 (conv : HijriConv) (g : GDate) :
    (is_ramadan conv g = true ↔ ∃ h, get_hijri_date conv g = some h ∧ h.month = 9) ∧
    ((hijriFieldsFor conv g).is_ramadan = is_ramadan conv g) ∧
    (get_hijri_date conv g = none → (hijriFieldsFor conv g).is_ramadan = false) := by
  cases hc : get_hijri_date conv g with
  | none =>
    refine ⟨?_, ?_, ?_⟩
    · simp only [is_ramadan, hc]
      constructor
      · intro h; exact absurd h (by simp)
      · rintro ⟨h, hh, _⟩; simp at hh
    · simp only [hijriFieldsFor, is_ramadan, hc]
    · intro _; simp only [hijriFieldsFor, hc]
  | some h0 =>
    refine ⟨?_, ?_, ?_⟩
    · simp only [is_ramadan, hc]
      constructor
      · intro hb; exact ⟨h0, rfl, by simpa using hb⟩
      · rintro ⟨h1, hh, hm⟩
        injection hh with hh0
        subst hh0
        simpa using hm
    · simp only [hijriFieldsFor, is_ramadan, hc]
    · intro hnone
      exact absurd hnone (by simp)

/-- Witness for claim C1: a failing conversion at the concrete date gd1
yields is_ramadan false in the attached fields. -/
theorem C1_is_ramadan_iff_month9_witness :
    (hijriFieldsFor convNone gd1).is_ramadan = false :=
  (C1_is_ramadan_iff_month9 convNone gd1).2.2 rfl

/-- Claim C2: on Hijri dates with month in 1..12 and day in 1..30, the
classifier assigns exactly the event table of the specification and the
Ramadan period is set exactly for month 9, with the windows of the
specification. -/
theorem C2_event_table (conv : HijriConv) (g : GDate) (y m d : Nat)
    (hconv : get_hijri_date conv g = some ⟨y, m, d⟩)
    (hm1 : 1 ≤ m) (hm2 : m ≤ 12) (hd1 : 1 ≤ d) (hd2 : d ≤ 30) :
    identify_islamic_events conv g = specEventTable m d ∧
    get_ramadan_period conv g = specRamadanPeriod m d ∧
    ((get_ramadan_period conv g).isSome ↔ m = 9) := by
  have he : identify_islamic_events conv g = eventsOfHijri ⟨y, m, d⟩ := by
    unfold identify_islamic_events
    rw [hconv]
  have hp : get_ramadan_period conv g =
      (if m ≠ 9 then none else some (ramadanPeriodOfDay d)) := by
    unfold get_ramadan_period
    rw [hconv]
  refine ⟨?_, ?_, ?_⟩
  · rw [he]; exact eventsOfHijri_eq_spec y m d hm1 hm2 hd1 hd2
  · rw [hp]; exact ramadanPeriod_eq_spec m d hm1 hm2 hd1 hd2
  · rw [hp]
    by_cases h9 : m = 9 <;> simp [h9]

/-- Witness for claim C2: the Hijri date (9, 15) is classified as the
middle ten days of Ramadan. -/
theorem C2_event_table_witness :
    identify_islamic_events conv915 gd1 = some "Ramadan (Middle 10 Days)" ∧
    get_ramadan_period conv915 gd1 = some "Middle 10 Days" := by
  have h := C2_event_table conv915 gd1 1446 9 15 rfl (by decide) (by decide)
    (by decide) (by decide)
  exact ⟨by rw [h.1]; rfl, by rw [h.2.1]; rfl⟩

/-- Splitting a list by a predicate splits its length. -/
theorem length_filter_split {α : Type} (p : α → Bool) (l : List α) :
    (l.filter p).length + (l.filter (fun a => !(p a))).length = l.length := by
  induction l with
  | nil => rfl
  | cons x xs ih =>
    by_cases h : p x = true <;> simp [List.filter_cons, h] <;> omega

/-- Field equations of calculate_kpis on a non-empty frame. -/
theorem calculate_kpis_fields (df : List MetricRow) (h : df ≠ []) :
    (calculate_kpis df).std_donation = sampleVarQ (df.map MetricRow.amount) ∧
    (calculate_kpis df).ramadan_avg =
      (if 0 < (df.filter MetricRow.is_ramadan).length then
        meanQ ((df.filter MetricRow.is_ramadan).map MetricRow.amount) else 0) ∧
    (calculate_kpis df).ramadan_amount =
      (if 0 < (df.filter MetricRow.is_ramadan).length then
        ((df.filter MetricRow.is_ramadan).map MetricRow.amount).sum else 0) ∧
    (calculate_kpis df).ramadan_percentage =
      (if 0 < df.length then
        (((df.filter MetricRow.is_ramadan).length : ℚ) / (df.length : ℚ)) * 100 else 0) ∧
    (calculate_kpis df).non_ramadan_avg =
      (if 0 < (df.filter (fun r => !r.is_ramadan)).length then
        meanQ ((df.filter (fun r => !r.is_ramadan)).map MetricRow.amount) else 0) := by
  unfold calculate_kpis
  rw [if_neg h]
  exact ⟨rfl, rfl, rfl, rfl, rfl⟩

/-- Counterexample to claim C3 as stated: on a single-record input the
standard deviation field of calculate_kpis is the pandas NaN (sample std
with one delta degree of freedom needs at least two values), so not every
numeric field of the result is finite. -/
theorem C3_counterexample :
    (calculate_kpis [mkRow 1 5 2023 1]).std_donation = none := by decide

/-- Claim C3 amended: calculate_kpis on the empty sequence returns the
all-zero structure, every division-by-zero case returns 0, and every
numeric field except the standard deviation is a finite number; the
standard deviation is NaN exactly on non-empty inputs with fewer than two
records. -/
theorem C3_kpis_zero_safety :
    calculate_kpis [] = empty_kpis ∧
    (∀ df : List MetricRow,
      ((calculate_kpis df).std_donation.isSome = true ↔ (df = [] ∨ 2 ≤ df.length))) ∧
    (∀ df : List MetricRow, df.filter MetricRow.is_ramadan = [] →
      (calculate_kpis df).ramadan_avg = 0 ∧ (calculate_kpis df).ramadan_amount = 0 ∧
      (calculate_kpis df).ramadan_percentage = 0) ∧
    (∀ df : List MetricRow, df.filter (fun r => !r.is_ramadan) = [] →
      (calculate_kpis df).non_ramadan_avg = 0) := by
  refine ⟨rfl, ?_, ?_, ?_⟩
  · intro df
    by_cases hdf : df = []
    · subst hdf
      simp [calculate_kpis, empty_kpis]
    · rw [(calculate_kpis_fields df hdf).1]
      unfold sampleVarQ
      rw [List.length_map]
      by_cases h2 : df.length < 2
      · rw [if_pos h2]
        constructor
        · intro hs
          exact absurd hs (by simp)
        · rintro (h | h)
          · exact absurd h hdf
          · exact absurd h (by omega)
      · rw [if_neg h2]
        simp only [Option.isSome_some, true_iff]
        right
        omega
  · intro df hram
    by_cases hdf : df = []
    · subst hdf
      exact ⟨rfl, rfl, rfl⟩
    · obtain ⟨-, ha, hb, hc, -⟩ := calculate_kpis_fields df hdf
      rw [ha, hb, hc, hram]
      simp
  · intro df hnonram
    by_cases hdf : df = []
    · subst hdf
      exact rfl
    · obtain ⟨-, -, -, -, he⟩ := calculate_kpis_fields df hdf
      rw [he, hnonram]
      simp

/-- Witness for the amended claim C3 at concrete inputs: a one-record
input with no Ramadan rows has zero Ramadan average and a NaN standard
deviation is ruled out for a two-record input. -/
theorem C3_kpis_zero_safety_witness :
    (calculate_kpis [mkRow 1 5 2023 1]).ramadan_avg = 0 ∧
    (calculate_kpis [mkRow 1 5 2023 1, mkRow 2 7 2023 1]).std_donation.isSome = true :=
  ⟨(C3_kpis_zero_safety.2.2.1 [mkRow 1 5 2023 1] (by decide)).1,
   (C3_kpis_zero_safety.2.1 [mkRow 1 5 2023 1, mkRow 2 7 2023 1]).2 (by right; decide)⟩

/-- Counterexample to claim C4 as stated: with 5 unparseable dates and 3
negative (but numeric) amounts among 100 rows, the cleaning step keeps 95
records and reports 5 dropped, not 92 and 8 — negative amounts are not
dropped. -/
theorem C4_counterexample :
    (cleanRows demoRawNeg100).length = 95 ∧ droppedCount demoRawNeg100 = 5 := by decide

/-- Claim C4 amended: the validation step drops exactly the records whose
date is unparseable or whose amount is missing or non-numeric; negative
numeric amounts are retained. With 5 unparseable dates and 3
missing/non-numeric amounts among 100 rows and no overlap, exactly 92
records survive and the reported dropped count is 8. -/
theorem C4_cleaning :
    (∀ (rows : List RawRow) (r : RawRow),
      r ∈ cleanRows rows ↔ r ∈ rows ∧ r.donationdate.isSome = true ∧ r.amount.isSome = true) ∧
    (∀ rows : List RawRow, droppedCount rows =
      (rows.filter (fun r => !(r.donationdate.isSome && r.amount.isSome))).length) ∧
    (cleanRows demoRaw100).length = 92 ∧ droppedCount demoRaw100 = 8 := by
  refine ⟨?_, ?_, by decide, by decide⟩
  · intro rows r
    simp [cleanRows, List.mem_filter]
  · intro rows
    have hsplit := length_filter_split (fun r => r.donationdate.isSome && r.amount.isSome) rows
    unfold droppedCount cleanRows
    omega

/-- Claim C5, evaluated at a failing input: from two raw rows whose first
has an unparseable date, validation keeps one record (with pandas label 1),
yet the index-aligned concat of process_donation_data emits two output
rows: a phantom row at label 0 holding the Hijri fields computed from the
surviving record, and the surviving record at label 1 with no Hijri fields
at all. The enrichment contract of one output per validated record, with
Hijri fields from that same record, is violated. -/
theorem C5_concat_misalignment :
    (validatedIndexed demoRawDrop).length = 1 ∧
    (enrichAttach conv915 (validatedIndexed demoRawDrop)).length = 2 ∧
    (enrichAttach conv915 (validatedIndexed demoRawDrop)).lookup 1 = some (some gd1, none) ∧
    (enrichAttach conv915 (validatedIndexed demoRawDrop)).lookup 0 =
      some (none, some (hijriFieldsFor conv915 gd1)) := by decide

/-- Claim C6: translation is cache-first memoization. A cached label is
returned from the cache with no remote call; a successful miss makes one
remote call, caches the result, and the next lookup of the same label is a
cache hit with no remote call; a failed miss returns the original label
unchanged and caches nothing, so the next lookup retries the remote
call. -/
theorem C6_translation_memoization (t : String) (translator : String → Except String String)
    (translation_cache : List (String × String)) (v e : String) :
    (t ≠ "" → translation_cache.lookup t = some v →
      translate_text (some t) translator translation_cache = ⟨some v, translation_cache, 0⟩) ∧
    (t ≠ "" → translation_cache.lookup t = none → translator t = Except.ok v →
      translate_text (some t) translator translation_cache =
        ⟨some v, (t, v) :: translation_cache, 1⟩ ∧
      translate_text (some t) translator ((t, v) :: translation_cache) =
        ⟨some v, (t, v) :: translation_cache, 0⟩) ∧
    (t ≠ "" → translation_cache.lookup t = none → translator t = Except.error e →
      translate_text (some t) translator translation_cache =
        ⟨some t, translation_cache, 1⟩) := by
  refine ⟨?_, ?_, ?_⟩
  · intro ht hcache
    simp [translate_text, ht, hcache]
  · intro ht hcache hok
    refine ⟨?_, ?_⟩
    · simp [translate_text, ht, hcache, hok]
    · simp [translate_text, ht, List.lookup]
  · intro ht hcache herr
    simp [translate_text, ht, hcache, herr]

/-- Witness for claim C6: with an empty cache and a remote oracle that
translates the label x to y, the first call makes one remote call and the
second is a pure cache hit. -/
theorem C6_translation_memoization_witness :
    translate_text (some "x") (fun _ => Except.ok "y") [] = ⟨some "y", [("x", "y")], 1⟩ ∧
    translate_text (some "x") (fun _ => Except.ok "y") [("x", "y")] =
      ⟨some "y", [("x", "y")], 0⟩ :=
  (C6_translation_memoization "x" (fun _ => Except.ok "y") [] "y" "").2.1
    (by decide) rfl rfl

/-- The batched loop with positive batch size enriches every row in
order. -/
theorem enrichBatchedGo_eq_map (conv : HijriConv) (bs : Nat) (hbs : 1 ≤ bs) :
    ∀ (fuel : Nat) (l : List GDate), l.length ≤ fuel →
      enrichBatchedGo conv bs fuel l = l.map (hijriFieldsFor conv) := by
  intro fuel
  induction fuel with
  | zero =>
    intro l hl
    cases l with
    | nil => rfl
    | cons x xs => simp at hl
  | succ fuel ih =>
    intro l hl
    cases l with
    | nil => rfl
    | cons x xs =>
      have hdrop : ((x :: xs).drop bs).length ≤ fuel := by
        rw [List.length_drop]
        simp only [List.length_cons] at hl ⊢
        omega
      show ((x :: xs).take bs).map (hijriFieldsFor conv) ++
          enrichBatchedGo conv bs fuel ((x :: xs).drop bs) = _
      rw [ih _ hdrop, ← List.map_append, List.take_append_drop]

/-- Claim C10: for any two positive batch sizes the enrichment step
produces the same sequence of enriched records; the batch size only drives
progress reporting. -/
theorem C10_batch_size_irrelevant (conv : HijriConv) (bs1 bs2 : Nat) (l : List GDate)
    (h1 : 1 ≤ bs1) (h2 : 1 ≤ bs2) :
    enrichBatched conv bs1 l = enrichBatched conv bs2 l := by
  unfold enrichBatched
  rw [enrichBatchedGo_eq_map conv bs1 h1 l.length l le_rfl,
    enrichBatchedGo_eq_map conv bs2 h2 l.length l le_rfl]

/-- Witness for claim C10 at batch sizes 1 and 2 on three concrete
dates. -/
theorem C10_batch_size_irrelevant_witness :
    enrichBatched conv915 1 demoDates = enrichBatched conv915 2 demoDates :=
  C10_batch_size_irrelevant conv915 1 2 demoDates (by decide) (by decide)

/-- Deduplicating a list whose elements are all equal leaves at most one
element. -/
theorem dedup_all_eq_length_le_one {α : Type} [DecidableEq α] (a : α) :
    ∀ l : List α, (∀ x ∈ l, x = a) → l.dedup.length ≤ 1 := by
  intro l
  induction l with
  | nil => intro _; simp
  | cons x xs ih =>
    intro h
    by_cases hx : x ∈ xs
    · rw [List.dedup_cons_of_mem hx]
      exact ih (fun z hz => h z (List.mem_cons_of_mem x hz))
    · rw [List.dedup_cons_of_not_mem hx]
      cases xs with
      | nil => simp
      | cons z zs =>
        exfalso
        have hz : z = a := h z (by simp)
        have hxa : x = a := h x (by simp)
        rw [hxa, ← hz] at hx
        exact hx (List.mem_cons_self z zs)

/-- The growth tail on a grouped list whose reverse starts with two
entries. -/
theorem growthOfGrouped_eq (grouped : List ((Nat × Nat) × ℚ))
    (cur prev : (Nat × Nat) × ℚ) (rest : List ((Nat × Nat) × ℚ))
    (h : grouped.reverse = cur :: prev :: rest) :
    growthOfGrouped grouped =
      (if prev.2 = 0 then 0 else ((cur.2 - prev.2) / prev.2) * 100) := by
  have hlen2 : ¬ grouped.length < 2 := by
    have hrev : grouped.reverse.length = rest.length + 2 := by rw [h]; simp
    rw [List.length_reverse] at hrev
    omega
  unfold growthOfGrouped
  rw [if_neg hlen2, h]

/-- Claim C7: calculate_growth_rate groups amounts by calendar period in
chronological order and returns the percentage change between the last two
periods present; it returns 0 with fewer than two periods (in particular
when all records lie in a single month) and 0 when the prior period sum is
exactly zero. -/
theorem C7_growth_rate (df : List MetricRow) (period : String) :
    ((df.map (periodKey period)).dedup.length < 2 → calculate_growth_rate df period = 0) ∧
    List.Sorted keyLE ((groupedSums df period).map Prod.fst) ∧
    (∀ (cur prev : (Nat × Nat) × ℚ) (rest : List ((Nat × Nat) × ℚ)),
      (period = "month" ∨ period = "year") →
      (groupedSums df period).reverse = cur :: prev :: rest →
      calculate_growth_rate df period =
        (if prev.2 = 0 then 0 else ((cur.2 - prev.2) / prev.2) * 100)) ∧
    (∀ y m, period = "month" → (∀ r ∈ df, r.year = y ∧ r.month = m) →
      calculate_growth_rate df period = 0) := by
  have hlen : (groupedSums df period).length = (df.map (periodKey period)).dedup.length := by
    unfold groupedSums
    rw [List.length_map, List.length_insertionSort]
  have hfew : (df.map (periodKey period)).dedup.length < 2 →
      calculate_growth_rate df period = 0 := by
    intro h
    unfold calculate_growth_rate
    by_cases h1 : df.length < 2
    · rw [if_pos h1]
    · rw [if_neg h1]
      by_cases h2 : period = "month" ∨ period = "year"
      · rw [if_pos h2]
        unfold growthOfGrouped
        rw [if_pos (by omega : (groupedSums df period).length < 2)]
      · rw [if_neg h2]
  refine ⟨hfew, ?_, ?_, ?_⟩
  · unfold groupedSums
    rw [List.map_map]
    have hid : (Prod.fst ∘ fun k : Nat × Nat =>
        (k, ((df.filter (fun r => periodKey period r == k)).map MetricRow.amount).sum)) = id := rfl
    rw [hid, List.map_id]
    exact List.sorted_insertionSort keyLE _
  · intro cur prev rest hper hrev
    have hg := growthOfGrouped_eq (groupedSums df period) cur prev rest hrev
    have hrevlen : (groupedSums df period).reverse.length = rest.length + 2 := by
      rw [hrev]; simp
    rw [List.length_reverse] at hrevlen
    have hdedup_le : (df.map (periodKey period)).dedup.length ≤ df.length := by
      have hsub := (List.dedup_sublist (df.map (periodKey period))).length_le
      rwa [List.length_map] at hsub
    have h1 : ¬ df.length < 2 := by omega
    unfold calculate_growth_rate
    rw [if_neg h1, if_pos hper, hg]
  · intro y m hper hall
    apply hfew
    have hconst : ∀ x ∈ df.map (periodKey period), x = (y, m) := by
      intro x hx
      obtain ⟨r, hr, rfl⟩ := List.mem_map.1 hx
      obtain ⟨hy, hm⟩ := hall r hr
      subst hper
      simp [periodKey, hy, hm]
    have hle1 := dedup_all_eq_length_le_one (y, m) (df.map (periodKey period)) hconst
    omega

/-- Witness for claim C7: two donations inside one calendar month give a
zero growth rate. -/
theorem C7_growth_rate_witness :
    calculate_growth_rate demoSingleMonth "month" = 0 :=
  (C7_growth_rate demoSingleMonth "month").2.2.2 2023 4 rfl (by decide)

/-- Looking up the key of the head of an association list. -/
theorem lookup_cons_self {β : Type} (k : String) (v : β) (rest : List (String × β)) :
    List.lookup k ((k, v) :: rest) = some v := by
  simp [List.lookup]

/-- Looking up past a head with a different key. -/
theorem lookup_cons_ne {β : Type} (k k0 : String) (v : β) (rest : List (String × β))
    (h : (k == k0) = false) :
    List.lookup k ((k0, v) :: rest) = List.lookup k rest := by
  simp [List.lookup, h]

/-- Total-related field equations of calculate_kpis on a non-empty
frame. -/
theorem calculate_kpis_totals (df : List MetricRow) (h : df ≠ []) :
    (calculate_kpis df).total_amount = (df.map MetricRow.amount).sum ∧
    (calculate_kpis df).total_donations = df.length ∧
    (calculate_kpis df).avg_donation = meanQ (df.map MetricRow.amount) := by
  unfold calculate_kpis
  rw [if_neg h]
  exact ⟨rfl, rfl, rfl⟩

/-- Reading the total_amount entry through kpiValue. -/
theorem kpiValue_total_amount (k : Kpis) :
    kpiValue k "total_amount" = k.total_amount := by
  unfold kpiValue
  rw [if_neg (by decide), if_pos rfl]

/-- Reading the total_donations entry through kpiValue. -/
theorem kpiValue_total_donations (k : Kpis) :
    kpiValue k "total_donations" = (k.total_donations : ℚ) := by
  unfold kpiValue
  rw [if_pos rfl]

/-- Counterexample to claim C8 as stated: comparing a period against
itself, the total_amount percentage delta is 0 although the first period has
total amount 5, not 0 — the percentage delta being 0 is not equivalent
to the first value being 0. -/
theorem C8_counterexample :
    (compare_periods [mkRow 1 5 2023 1] [mkRow 1 5 2023 1] "A" "B").changes.lookup
      "total_amount" = some (0, 0) ∧
    (calculate_kpis [mkRow 1 5 2023 1]).total_amount ≠ 0 := by
  have htot : (calculate_kpis [mkRow 1 5 2023 1]).total_amount = 5 := by
    rw [(calculate_kpis_totals [mkRow 1 5 2023 1] (by simp)).1]
    simp [mkRow]
  constructor
  · simp only [compare_periods, trackedKeys, List.map_cons, List.map_nil]
    rw [lookup_cons_ne _ _ _ _ (by decide), lookup_cons_self]
    rw [kpiValue_total_amount, htot]
    norm_num
  · rw [htot]
    norm_num

/-- Claim C8 amended: compare_periods computes calculate_kpis on each set
independently and, per tracked metric, reports the absolute delta as the
second value minus the first and the percentage delta as 100 times the
relative change when the first value is strictly positive and 0 otherwise
(so the percentage delta is 0 whenever the first value is 0, but also when
the first value is negative or the two values are equal). -/
theorem C8_compare_periods (df1 df2 : List MetricRow) (l1 l2 : String) :
    (∀ key ∈ trackedKeys,
      (compare_periods df1 df2 l1 l2).changes.lookup key =
        some (kpiValue (calculate_kpis df2) key - kpiValue (calculate_kpis df1) key,
          if 0 < kpiValue (calculate_kpis df1) key then
            ((kpiValue (calculate_kpis df2) key - kpiValue (calculate_kpis df1) key) /
              kpiValue (calculate_kpis df1) key) * 100
          else 0)) ∧
    (compare_periods df1 df2 l1 l2).kpis1 = calculate_kpis df1 ∧
    (compare_periods df1 df2 l1 l2).kpis2 = calculate_kpis df2 := by
  refine ⟨?_, rfl, rfl⟩
  intro key hkey
  have hch : (compare_periods df1 df2 l1 l2).changes =
      trackedKeys.map (fun k =>
        (k, kpiValue (calculate_kpis df2) k - kpiValue (calculate_kpis df1) k,
          if 0 < kpiValue (calculate_kpis df1) k then
            ((kpiValue (calculate_kpis df2) k - kpiValue (calculate_kpis df1) k) /
              kpiValue (calculate_kpis df1) k) * 100
          else 0)) := rfl
  rw [hch]
  simp only [trackedKeys, List.mem_cons, List.not_mem_nil, or_false] at hkey
  simp only [trackedKeys, List.map_cons, List.map_nil]
  rcases hkey with rfl | rfl | rfl | rfl | rfl
  · exact lookup_cons_self _ _ _
  · rw [lookup_cons_ne _ _ _ _ (by decide)]
    exact lookup_cons_self _ _ _
  · rw [lookup_cons_ne _ _ _ _ (by decide), lookup_cons_ne _ _ _ _ (by decide)]
    exact lookup_cons_self _ _ _
  · rw [lookup_cons_ne _ _ _ _ (by decide), lookup_cons_ne _ _ _ _ (by decide),
      lookup_cons_ne _ _ _ _ (by decide)]
    exact lookup_cons_self _ _ _
  · rw [lookup_cons_ne _ _ _ _ (by decide), lookup_cons_ne _ _ _ _ (by decide),
      lookup_cons_ne _ _ _ _ (by decide), lookup_cons_ne _ _ _ _ (by decide)]
    exact lookup_cons_self _ _ _

/-- Witness for claim C8, the comparison scenario: period A has total
amount 1000 over 10 donations and period B 1500 over 10 donations; the
total_amount percentage delta is 50 and the total_donations percentage
delta is 0. -/
theorem C8_compare_periods_witness :
    (compare_periods demoPeriodA demoPeriodB "A" "B").changes.lookup "total_amount" =
      some (500, 50) ∧
    (compare_periods demoPeriodA demoPeriodB "A" "B").changes.lookup "total_donations" =
      some (0, 0) := by
  have h1 := (C8_compare_periods demoPeriodA demoPeriodB "A" "B").1 "total_amount" (by decide)
  have h2 := (C8_compare_periods demoPeriodA demoPeriodB "A" "B").1 "total_donations" (by decide)
  have hAamt : (calculate_kpis demoPeriodA).total_amount = 1000 := by
    rw [(calculate_kpis_totals demoPeriodA (by simp [demoPeriodA])).1]
    simp [demoPeriodA, mkRow, List.sum_replicate]
    norm_num
  have hBamt : (calculate_kpis demoPeriodB).total_amount = 1500 := by
    rw [(calculate_kpis_totals demoPeriodB (by simp [demoPeriodB])).1]
    simp [demoPeriodB, mkRow, List.sum_replicate]
    norm_num
  have hAcnt : (calculate_kpis demoPeriodA).total_donations = 10 := by
    rw [(calculate_kpis_totals demoPeriodA (by simp [demoPeriodA])).2.1]
    simp [demoPeriodA]
  have hBcnt : (calculate_kpis demoPeriodB).total_donations = 10 := by
    rw [(calculate_kpis_totals demoPeriodB (by simp [demoPeriodB])).2.1]
    simp [demoPeriodB]
  rw [h1, h2, kpiValue_total_amount, kpiValue_total_amount, kpiValue_total_donations,
    kpiValue_total_donations, hAamt, hBamt, hAcnt, hBcnt]
  norm_num

/-- Counterexample to claim C9 as stated: the result of
calculate_donor_statistics on an empty input lacks the
median_donations_per_donor field that the non-empty result carries, so the
two branches do not share the same fields. -/
theorem C9_counterexample :
    (calculate_donor_statistics []).lookup "median_donations_per_donor" = none ∧
    (calculate_donor_statistics [mkRow 1 5 2023 1]).lookup "median_donations_per_donor" =
      some 1 := by decide

/-- Claim C9 amended: on an empty input calculate_donor_statistics returns,
without raising, the all-zero structure with the six fields total donors,
repeat donors, one-time donors, mean donations per donor, maximum donor
amount and maximum donor count; the median-donations-per-donor field
appears only in the non-empty result. -/
theorem C9_donor_statistics_empty :
    calculate_donor_statistics [] =
      [("total_donors", 0), ("repeat_donors", 0), ("one_time_donors", 0),
       ("avg_donations_per_donor", 0), ("top_donor_amount", 0), ("top_donor_count", 0)] ∧
    (∀ (r : MetricRow) (df : List MetricRow),
      (calculate_donor_statistics (r :: df)).map Prod.fst =
        ["total_donors", "repeat_donors", "one_time_donors", "avg_donations_per_donor",
         "top_donor_amount", "top_donor_count", "median_donations_per_donor"]) := by
  refine ⟨rfl, ?_⟩
  intro r df
  unfold calculate_donor_statistics
  rw [if_neg (by simp : ¬ (r :: df = []))]
  rfl

/-- Witness for the amended claim C4 at the concrete 100-row input. -/
theorem C4_cleaning_witness :
    (cleanRows demoRaw100).length = 92 ∧ droppedCount demoRaw100 = 8 :=
  C4_cleaning.2.2

/-- Witness for the amended claim C9 at a concrete one-record input. -/
theorem C9_donor_statistics_empty_witness :
    (calculate_donor_statistics [mkRow 1 5 2023 1]).map Prod.fst =
      ["total_donors", "repeat_donors", "one_time_donors", "avg_donations_per_donor",
       "top_donor_amount", "top_donor_count", "median_donations_per_donor"] :=
  C9_donor_statistics_empty.2 (mkRow 1 5 2023 1) []
